import Mathlib

/-!
# Verification of the erp-sync ingestion / job-queue core

Shallow embedding of the job-sync core of the `erp-sync` repository
(`app/features/job_sync/{db_helpers,service,repo,worker,scheduler,router}.py`),
together with theorems settling the specification claims about it.

Modelling conventions:
* Timestamps are `Int` minutes (the code stores ISO-8601 UTC strings, whose
  SQL string comparison agrees with chronological order).
* SQLite rows become Lean structures; a table is a `List` of rows; the
  `AUTOINCREMENT` id source is an explicit counter in the `DB` state.
* A SQL `UPDATE ... WHERE` maps the whole list, updating every matching row,
  and `SELECT ... LIMIT 1` / `fetchone` takes the first match in row order.
* Payloads are flat JSON objects (the source system returns flat records):
  association lists of key/`JPrim` pairs in insertion order, as in a Python
  dict.  `json.dumps(payload, sort_keys=True)` and `hashlib.md5` are
  implemented in full (`dumpsSorted`, `md5hex`).
-/

namespace ErpSync

set_option maxRecDepth 1000000

/-- A flat JSON scalar value, as found in the fetched ERP records. -/
inductive JPrim where
  | str (s : String)
  | int (n : Int)
  | bool (b : Bool)
  | null
deriving DecidableEq, Repr

/-- A Python dict in insertion order: the payload of one ERP record. -/
abbrev Payload := List (String × JPrim)

/-- Python truthiness of a scalar (`bool(value)`). -/
def truthy : JPrim → Bool
  | .str s => !s.isEmpty
  | .int n => n != 0
  | .bool b => b
  | .null => false

/-- Python `str(value)` / f-string interpolation of a scalar. -/
def pyStr : JPrim → String
  | .str s => s
  | .int n => toString n
  | .bool b => if b then "True" else "False"
  | .null => "None"

/-- `record[k]` lookup on a Python dict (first binding; dicts have unique keys). -/
def lookupField (r : Payload) (k : String) : Option JPrim :=
  (r.find? (fun kv => kv.1 == k)).map (·.2)

/-! ## `json.dumps(payload, sort_keys=True)` -/

/-- Lower-case hex digit. -/
def hexDigit (n : Nat) : Char :=
  if n < 10 then Char.ofNat (48 + n) else Char.ofNat (87 + n)

/-- Four-digit lower-case hex, as in a JSON `\uXXXX` escape. -/
def hex4 (n : Nat) : String :=
  String.mk [hexDigit (n / 4096 % 16), hexDigit (n / 256 % 16),
             hexDigit (n / 16 % 16), hexDigit (n % 16)]

/-- JSON string escaping of one character, following Python's
`json.encoder` with `ensure_ascii=True` (the `json.dumps` default). -/
def escapeChar (c : Char) : String :=
  if c = '"' then "\\\""
  else if c = '\\' then "\\\\"
  else if c = Char.ofNat 8 then "\\b"
  else if c = Char.ofNat 9 then "\\t"
  else if c = Char.ofNat 10 then "\\n"
  else if c = Char.ofNat 12 then "\\f"
  else if c = Char.ofNat 13 then "\\r"
  else if c.toNat < 32 then "\\u" ++ hex4 c.toNat
  else if c.toNat < 128 then String.singleton c
  else if c.toNat < 65536 then "\\u" ++ hex4 c.toNat
  else
    let v := c.toNat - 65536
    "\\u" ++ hex4 (55296 + v / 1024) ++ "\\u" ++ hex4 (56320 + v % 1024)

/-- JSON string escaping (`ensure_ascii=True`); output is pure ASCII. -/
def escapeString (s : String) : String :=
  String.join (s.data.map escapeChar)

/-- Serialization of one scalar, as `json.dumps` renders it. -/
def dumpsPrim : JPrim → String
  | .str s => "\"" ++ escapeString s ++ "\""
  | .int n => toString n
  | .bool b => if b then "true" else "false"
  | .null => "null"

/-- Python's `<` on strings: lexicographic comparison of code-point
sequences. -/
def charsLt : List Char → List Char → Bool
  | [], [] => false
  | [], _ :: _ => true
  | _ :: _, [] => false
  | a :: as, b :: bs =>
    if a < b then true
    else if b < a then false
    else charsLt as bs

/-- The "not greater by key" relation used to sort entries: `x` may precede
`y` when `y`'s key is not smaller. -/
def keyLe (x y : String × JPrim) : Prop :=
  charsLt y.1.data x.1.data = false

instance : DecidableRel keyLe := fun _ _ => Bool.decEq _ _

/-- Entries stably sorted by key: the iteration order of `sort_keys=True`.
(Python's `sorted` is a stable sort by `<` on code points; a stable
insertion sort with the corresponding "not greater" relation produces the
same list.) -/
def sortEntries (p : Payload) : Payload :=
  p.insertionSort keyLe

/-- Comma-joined `"key": value` items with the default `json.dumps`
separators `(", ", ": ")`. -/
def dumpsEntries (l : Payload) : String :=
  String.intercalate ", "
    (l.map (fun kv => "\"" ++ escapeString kv.1 ++ "\": " ++ dumpsPrim kv.2))

/-- `json.dumps(payload, sort_keys=True)` for a flat payload. -/
def dumpsSorted (p : Payload) : String :=
  "\x7b" ++ dumpsEntries (sortEntries p) ++ "\x7d"

/-! ## `hashlib.md5` -/

/-- The 64 MD5 round constants `K[i] = floor(abs(sin(i+1)) * 2^32)`. -/
def kTable : List Nat :=
  [3614090360, 3905402710, 606105819, 3250441966, 4118548399, 1200080426,
   2821735955, 4249261313, 1770035416, 2336552879, 4294925233, 2304563134,
   1804603682, 4254626195, 2792965006, 1236535329, 4129170786, 3225465664,
   643717713, 3921069994, 3593408605, 38016083, 3634488961, 3889429448,
   568446438, 3275163606, 4107603335, 1163531501, 2850285829, 4243563512,
   1735328473, 2368359562, 4294588738, 2272392833, 1839030562, 4259657740,
   2763975236, 1272893353, 4139469664, 3200236656, 681279174, 3936430074,
   3572445317, 76029189, 3654602809, 3873151461, 530742520, 3299628645,
   4096336452, 1126891415, 2878612391, 4237533241, 1700485571, 2399980690,
   4293915773, 2240044497, 1873313359, 4264355552, 2734768916, 1309151649,
   4149444226, 3174756917, 718787259, 3951481745]

/-- The MD5 per-round left-rotation amounts. -/
def sTable : List Nat :=
  [7, 12, 17, 22, 7, 12, 17, 22, 7, 12, 17, 22, 7, 12, 17, 22,
   5, 9, 14, 20, 5, 9, 14, 20, 5, 9, 14, 20, 5, 9, 14, 20,
   4, 11, 16, 23, 4, 11, 16, 23, 4, 11, 16, 23, 4, 11, 16, 23,
   6, 10, 15, 21, 6, 10, 15, 21, 6, 10, 15, 21, 6, 10, 15, 21]

/-- MD5 working state: four 32-bit words as bounded naturals. -/
structure MD5St where
  a : Nat
  b : Nat
  c : Nat
  d : Nat
deriving DecidableEq, Repr

/-- Rotate a 32-bit word left by `s` bits. -/
def rotl32 (x s : Nat) : Nat :=
  ((x <<< s) % 4294967296) ||| (x >>> (32 - s))

/-- The MD5 nonlinear function of round `i` (complement is xor with the
32-bit mask). -/
def md5F (i b c d : Nat) : Nat :=
  if i < 16 then (b &&& c) ||| ((4294967295 ^^^ b) &&& d)
  else if i < 32 then (d &&& b) ||| ((4294967295 ^^^ d) &&& c)
  else if i < 48 then b ^^^ c ^^^ d
  else c ^^^ (b ||| (4294967295 ^^^ d))

/-- The MD5 message-word index of round `i`. -/
def md5g (i : Nat) : Nat :=
  if i < 16 then i
  else if i < 32 then (5 * i + 1) % 16
  else if i < 48 then (3 * i + 5) % 16
  else (7 * i) % 16

/-- One MD5 round on working state `st` with message words `m`. -/
def md5round (m : List Nat) (st : MD5St) (i : Nat) : MD5St :=
  let f := (md5F i st.b st.c st.d + st.a + kTable.getD i 0
            + m.getD (md5g i) 0) % 4294967296
  ⟨st.d, (st.b + rotl32 f (sTable.getD i 0)) % 4294967296, st.b, st.c⟩

/-- The 16 little-endian 32-bit words of one 64-byte block. -/
def toWordsLE (block : List Nat) : List Nat :=
  (List.range 16).map (fun i =>
    block.getD (4 * i) 0 + 256 * block.getD (4 * i + 1) 0
      + 65536 * block.getD (4 * i + 2) 0 + 16777216 * block.getD (4 * i + 3) 0)

/-- The MD5 compression function on one 64-byte block. -/
def md5compress (st : MD5St) (block : List Nat) : MD5St :=
  let m := toWordsLE block
  let r := (List.range 64).foldl (md5round m) st
  ⟨(st.a + r.a) % 4294967296, (st.b + r.b) % 4294967296,
   (st.c + r.c) % 4294967296, (st.d + r.d) % 4294967296⟩

/-- Split a byte list into 64-byte chunks (accumulator reversed on emit). -/
def chunksAux : List Nat → List Nat → List (List Nat)
  | [], acc => if acc.isEmpty then [] else [acc.reverse]
  | b :: rest, acc =>
    if acc.length = 63 then (b :: acc).reverse :: chunksAux rest []
    else chunksAux rest (b :: acc)

/-- Split a byte list into 64-byte chunks. -/
def chunks64 (l : List Nat) : List (List Nat) := chunksAux l []

/-- MD5 padding: `0x80`, zeros to 56 mod 64, then the bit length as eight
little-endian bytes. -/
def padBytes (msg : List Nat) : List Nat :=
  let padLen := (64 + 55 - (msg.length % 64)) % 64
  let bitLen := (msg.length * 8) % 18446744073709551616
  msg ++ [128] ++ List.replicate padLen 0
      ++ (List.range 8).map (fun i => (bitLen >>> (8 * i)) % 256)

/-- The four little-endian bytes of a 32-bit word. -/
def wordBytesLE (w : Nat) : List Nat :=
  [w % 256, (w >>> 8) % 256, (w >>> 16) % 256, (w >>> 24) % 256]

/-- Two lower-case hex digits of a byte. -/
def byteHex (b : Nat) : String :=
  String.mk [hexDigit (b / 16 % 16), hexDigit (b % 16)]

/-- `hashlib.md5(bytes).hexdigest()`. -/
def md5hex (msg : List Nat) : String :=
  let st := (chunks64 (padBytes msg)).foldl md5compress
    ⟨1732584193, 4023233417, 2562383102, 271733878⟩
  String.join ((wordBytesLE st.a ++ wordBytesLE st.b
    ++ wordBytesLE st.c ++ wordBytesLE st.d).map byteHex)

/-- UTF-8 bytes of an ASCII string (all serializations here are pure ASCII
because `ensure_ascii=True` escapes every non-ASCII character). -/
def strBytes (s : String) : List Nat :=
  s.data.map Char.toNat

/-- `calculate_payload_hash` (db_helpers.py):
`hashlib.md5(json.dumps(payload, sort_keys=True).encode()).hexdigest()`. -/
def calculate_payload_hash (p : Payload) : String :=
  md5hex (strBytes (dumpsSorted p))

/-! ## The SQLite state (db_schema.py) -/

/-- Job status (`job_queue.status`). -/
inductive JobStatus where
  | queued
  | processing
  | done
  | failed
deriving DecidableEq, Repr

/-- A row of `erp_raw_data`. -/
structure RawRow where
  id : Nat
  erp_id : String
  payload : Payload
  payload_hash : String
  fetched_at : Int
deriving DecidableEq, Repr

/-- A row of `job_queue` (`retry_count` defaults to 0, `status` to
'queued'). -/
structure JobRow where
  id : Nat
  payload_ref : Nat
  status : JobStatus
  retry_count : Nat
  last_error : Option String
  last_attempt_at : Option Int
  next_attempt_at : Option Int
  created_at : Int
  updated_at : Int
deriving DecidableEq, Repr

/-- A row of `push_log`. -/
structure PushRow where
  job_id : Nat
  response_code : Nat
  response_body : String
  sent_at : Int
deriving DecidableEq, Repr

/-- The whole SQLite database, with the next `AUTOINCREMENT` ids. -/
structure DB where
  raw : List RawRow
  jobs : List JobRow
  push_log : List PushRow
  next_raw_id : Nat
  next_job_id : Nat
deriving DecidableEq, Repr

/-- The freshly initialized database (`AUTOINCREMENT` ids start at 1). -/
def emptyDB : DB := ⟨[], [], [], 1, 1⟩

/-! ## Queue primitives (db_helpers.py) -/

/-- `insert_raw_erp_data(erp_id, payload)` (db_helpers.py lines 38-98):
upsert by `erp_id` with hash comparison.  Returns the updated database,
the record id, and `is_updated`.  (The Python `except` branch returning
`(None, False)` is unreachable here: the model has no I/O failures.) -/
def insert_raw_erp_data (now : Int) (erp_id : String) (payload : Payload)
    (db : DB) : DB × Option Nat × Bool :=
  let new_hash := calculate_payload_hash payload
  match db.raw.find? (fun r => r.erp_id == erp_id) with
  | some r =>
    if r.payload_hash ≠ new_hash then
      ({db with raw := db.raw.map (fun x =>
          if x.id = r.id then
            {x with payload := payload, payload_hash := new_hash,
                    fetched_at := now}
          else x)},
       some r.id, true)
    else
      (db, some r.id, false)
  | none =>
    ({db with
        raw := db.raw ++ [⟨db.next_raw_id, erp_id, payload, new_hash, now⟩],
        next_raw_id := db.next_raw_id + 1},
     some db.next_raw_id, false)

/-- `create_job_for_payload(payload_ref, force_requeue)` (db_helpers.py
lines 101-160): create a queue entry, or requeue a done job when
`force_requeue` is set. -/
def create_job_for_payload (now : Int) (payload_ref : Nat)
    (force_requeue : Bool) (db : DB) : DB × Option Nat :=
  match db.jobs.find? (fun j => j.payload_ref == payload_ref) with
  | some j =>
    if force_requeue && j.status == .done then
      ({db with jobs := db.jobs.map (fun x =>
          if x.id = j.id then
            {x with status := .queued, updated_at := now,
                    next_attempt_at := some now, retry_count := 0}
          else x)},
       some j.id)
    else
      (db, some j.id)
  | none =>
    ({db with
        jobs := db.jobs ++
          [⟨db.next_job_id, payload_ref, .queued, 0, none, none,
            some now, now, now⟩],
        next_job_id := db.next_job_id + 1},
     some db.next_job_id)

/-- Eligibility in the `SELECT` of `get_next_queued_job`: status queued,
`next_attempt_at <= now` (SQL `NULL` compares to nothing), and the inner
join with `erp_raw_data` succeeds. -/
def eligibleJob (now : Int) (db : DB) (j : JobRow) : Bool :=
  j.status == .queued
    && (match j.next_attempt_at with
        | some t => t ≤ now
        | none => false)
    && db.raw.any (fun r => r.id == j.payload_ref)

/-- `ORDER BY created_at ASC LIMIT 1`: the first row with minimal
`created_at` (ties in row order). -/
def selectMinCreated (l : List JobRow) : Option JobRow :=
  l.foldl (fun acc j =>
    match acc with
    | none => some j
    | some b => if j.created_at < b.created_at then some j else acc) none

/-- The `SELECT` phase of `get_next_queued_job` (db_helpers.py lines
174-186): the oldest eligible queued job, if any. -/
def select_next_queued (now : Int) (db : DB) : Option JobRow :=
  selectMinCreated (db.jobs.filter (eligibleJob now db))

/-- The `UPDATE` phase of `get_next_queued_job` (db_helpers.py lines
194-201): `SET status='processing', last_attempt_at=?, updated_at=?
WHERE id = ?` — keyed by id only, not guarded by the current status. -/
def claim_update (now : Int) (job_id : Nat) (db : DB) : DB :=
  {db with jobs := db.jobs.map (fun x =>
    if x.id = job_id then
      {x with status := .processing, last_attempt_at := some now,
              updated_at := now}
    else x)}

/-- `get_next_queued_job()` (db_helpers.py lines 163-213): select the next
queued job, mark it processing, and return `(id, payload_ref, payload)`. -/
def get_next_queued_job (now : Int) (db : DB) :
    DB × Option (Nat × Nat × Payload) :=
  match select_next_queued now db with
  | none => (db, none)
  | some j =>
    (claim_update now j.id db,
     some (j.id, j.payload_ref,
       ((db.raw.find? (fun r => r.id == j.payload_ref)).map
         (·.payload)).getD []))

/-- The status-guarded conditional update the specification mandates for
the claim step (`UPDATE ... WHERE id = ? AND status = 'queued'`), modelled
from the spec's words for comparison with `claim_update`; the second
component is the number of rows affected. -/
def spec_guarded_claim_update (now : Int) (job_id : Nat) (db : DB) :
    DB × Nat :=
  ({db with jobs := db.jobs.map (fun x =>
      if x.id = job_id ∧ x.status = .queued then
        {x with status := .processing, last_attempt_at := some now,
                updated_at := now}
      else x)},
   (db.jobs.filter (fun x => x.id == job_id && x.status == .queued)).length)

/-- `mark_job_done(job_id)` (db_helpers.py lines 216-234). -/
def mark_job_done (now : Int) (job_id : Nat) (db : DB) : DB :=
  {db with jobs := db.jobs.map (fun x =>
    if x.id = job_id then {x with status := .done, updated_at := now}
    else x)}

/-- `mark_job_failed(job_id, error_msg)` (db_helpers.py lines 237-283):
increment the retry count; at 5 or more retries the job becomes failed
with `next_attempt_at` cleared, otherwise it is requeued with backoff
`min(retry_count * 5, 60)` minutes. -/
def mark_job_failed (now : Int) (job_id : Nat) (error_msg : String)
    (db : DB) : DB :=
  match db.jobs.find? (fun j => j.id == job_id) with
  | none => db
  | some j =>
    let retry_count := j.retry_count + 1
    let backoff_minutes : Int := min (retry_count * 5 : Int) 60
    let stNext : JobStatus × Option Int :=
      if retry_count ≥ 5 then (.failed, none)
      else (.queued, some (now + backoff_minutes))
    {db with jobs := db.jobs.map (fun x =>
      if x.id = job_id then
        {x with status := stNext.1, retry_count := retry_count,
                last_error := some error_msg,
                next_attempt_at := stNext.2, updated_at := now}
      else x)}

/-- `log_push_result(job_id, response_code, response_body)` (db_helpers.py
lines 286-305): append-only audit log. -/
def log_push_result (now : Int) (job_id : Nat) (response_code : Nat)
    (response_body : String) (db : DB) : DB :=
  {db with push_log :=
    db.push_log ++ [⟨job_id, response_code, response_body, now⟩]}

/-- `reset_stuck_jobs(timeout_minutes)` (db_helpers.py lines 308-347):
requeue every processing job whose `last_attempt_at` is older than the
timeout (SQL `NULL < ?` selects nothing); returns the rows affected. -/
def reset_stuck_jobs (now : Int) (timeout_minutes : Int) (db : DB) :
    DB × Nat :=
  let stuck : JobRow → Bool := fun j =>
    j.status == .processing
      && (match j.last_attempt_at with
          | some t => t < now - timeout_minutes
          | none => false)
  ({db with jobs := db.jobs.map (fun x =>
      if stuck x then {x with status := .queued, updated_at := now}
      else x)},
   (db.jobs.filter stuck).length)

/-! ## Service layer (service.py, repo.py) -/

/-- `generate_erp_id(record)` (repo.py lines 211-225):
`f"{record.get('CUST_ORDER_ID', '')}-{...}-{...}"` — a plain `"-"` join
without escaping. -/
def generate_erp_id (record : Payload) : String :=
  let get : String → String := fun k =>
    match lookupField record k with
    | some v => pyStr v
    | none => ""
  get "CUST_ORDER_ID" ++ "-" ++ get "CUST_ORDER_LINE_NO" ++ "-"
    ++ get "BOM_PART_ID"

/-- `validate_required_fields(record)` (service.py lines 62-73): all three
natural-key fields present and truthy. -/
def validate_required_fields (record : Payload) : Bool :=
  ["CUST_ORDER_ID", "CUST_ORDER_LINE_NO", "BOM_PART_ID"].all (fun f =>
    match lookupField record f with
    | some v => truthy v
    | none => false)

/-- `store_erp_record_in_sqlite(record)` (repo.py lines 190-208). -/
def store_erp_record_in_sqlite (now : Int) (record : Payload) (db : DB) :
    DB × Option Nat × Bool :=
  insert_raw_erp_data now (generate_erp_id record) record db

/-- Python truthiness of the optional ids tested by `if payload_id:` and
`if job_id:` (`None` and `0` are falsy). -/
def truthyId : Option Nat → Bool
  | some n => n != 0
  | none => false

/-- One iteration of the loop in `fetch_and_store_erp_data`
(service.py lines 39-52): validate, store, enqueue, count. -/
def fetchStoreStep (now : Int) (st : DB × Nat × Nat) (record : Payload) :
    DB × Nat × Nat :=
  let (db, stored_count, queued_count) := st
  if !validate_required_fields record then
    (db, stored_count, queued_count)
  else
    let (db1, payload_id, is_updated) :=
      store_erp_record_in_sqlite now record db
    if truthyId payload_id then
      let (db2, job_id) :=
        create_job_for_payload now (payload_id.getD 0) is_updated db1
      if truthyId job_id then
        (db2, stored_count + 1, queued_count + 1)
      else
        (db2, stored_count + 1, queued_count)
    else
      (db1, stored_count, queued_count)

/-- `fetch_and_store_erp_data(from_date)` (service.py lines 18-59) applied
to the records the source returned: stores and enqueues each valid record
and returns the result dict `{"stored": ..., "queued": ...}` (note: no
`"fetched"` key). -/
def fetch_and_store_erp_data (now : Int) (erp_records : List Payload)
    (db : DB) : DB × List (String × Nat) :=
  let (db1, stored_count, queued_count) :=
    erp_records.foldl (fetchStoreStep now) (db, 0, 0)
  (db1, [("stored", stored_count), ("queued", queued_count)])

/-- Python `dict.get(key, default)` on a string-keyed counter dict. -/
def dget (d : List (String × Nat)) (k : String) (dflt : Nat) : Nat :=
  (((d.find? (fun kv => kv.1 == k)).map (·.2)).getD dflt)

/-! ## Worker and scheduler (worker.py, scheduler.py, router.py) -/

/-- The session counters of `SyncWorker.current_sync_stats`. -/
structure SyncStats where
  is_syncing : Bool
  total_fetched : Nat
  unique_records : Nat
  queued_jobs : Nat
deriving DecidableEq, Repr

/-- `SyncWorker._run_fetch` (worker.py lines 88-135), after the service
call returns: the session counters are read out of the service's result
dict with `result.get("fetched", 0)` etc. -/
def run_fetch (now : Int) (erp_records : List Payload) (db : DB)
    (_stats : SyncStats) : DB × SyncStats :=
  let (db1, result) := fetch_and_store_erp_data now erp_records db
  (db1,
   { is_syncing := false,
     total_fetched := dget result "fetched" 0,
     unique_records := dget result "stored" 0,
     queued_jobs := dget result "queued" 0 })

/-- The worker's control state: `SyncWorker.is_running` and the
`is_syncing` session flag. -/
structure WorkerState where
  is_running : Bool
  is_syncing : Bool
deriving DecidableEq, Repr

/-- `SyncScheduler.sync_in_progress` (scheduler.py lines 22-25): it
returns `worker.is_running`, not the worker's `is_syncing` flag. -/
def sync_in_progress (w : WorkerState) : Bool :=
  w.is_running

/-- The outcome of the `/job-sync/stop` endpoint. -/
inductive StopOutcome where
  | alreadyStopped
  | rejected409
  | stopped
deriving DecidableEq, Repr

/-- `stop_sync()` (router.py lines 121-153): report "already stopped" when
not running; raise HTTP 409 while `scheduler.sync_in_progress`; otherwise
stop the worker. -/
def stop_sync (w : WorkerState) : StopOutcome × WorkerState :=
  if !w.is_running then (.alreadyStopped, w)
  else if sync_in_progress w then (.rejected409, w)
  else (.stopped, {w with is_running := false})

/-! ## Reachable queue states (for the global invariant) -/

/-- One database-mutating operation of the job-sync core. -/
inductive Step : DB → DB → Prop where
  | upsert (now : Int) (erp_id : String) (payload : Payload) (db : DB) :
      Step db (insert_raw_erp_data now erp_id payload db).1
  | enqueue (now : Int) (payload_ref : Nat) (force : Bool) (db : DB) :
      Step db (create_job_for_payload now payload_ref force db).1
  | claim (now : Int) (db : DB) :
      Step db (get_next_queued_job now db).1
  | complete (now : Int) (job_id : Nat) (db : DB) :
      Step db (mark_job_done now job_id db)
  | fail (now : Int) (job_id : Nat) (msg : String) (db : DB) :
      Step db (mark_job_failed now job_id msg db)
  | logPush (now : Int) (job_id code : Nat) (body : String) (db : DB) :
      Step db (log_push_result now job_id code body db)
  | reap (now timeout : Int) (db : DB) :
      Step db (reset_stuck_jobs now timeout db).1

/-- Database states reachable from the initialized empty database through
the operations of the core. -/
inductive Reachable : DB → Prop where
  | init : Reachable emptyDB
  | step {db db' : DB} : Reachable db → Step db db' → Reachable db'

/-- The number of jobs for `payload_ref` whose status is queued or
processing. -/
def countActiveJobs (db : DB) (payload_ref : Nat) : Nat :=
  (db.jobs.filter (fun j =>
    j.payload_ref == payload_ref
      && (j.status == .queued || j.status == .processing))).length

/-! ## Theorems -/

/-- C2: when the worker is running, `stop_sync` always answers HTTP 409
and leaves the worker untouched, whatever the actual `is_syncing` flag —
because `scheduler.sync_in_progress` returns `worker.is_running` itself.
There is no reachable running state in which stop stops the worker, which
contradicts the claim. -/
theorem stop_sync_always_rejects_while_running (w : WorkerState)
    (h : w.is_running = true) :
    (stop_sync w).1 = .rejected409 ∧ (stop_sync w).2 = w := by
  simp [stop_sync, sync_in_progress, h]

/-- Witness for `stop_sync_always_rejects_while_running` at the failing
input: the worker is running and no sync iteration is mid-flight, yet the
stop request is rejected. -/
theorem stop_sync_always_rejects_while_running_witness :
    (stop_sync ⟨true, false⟩).1 = .rejected409
      ∧ (stop_sync ⟨true, false⟩).2 = ⟨true, false⟩ :=
  stop_sync_always_rejects_while_running ⟨true, false⟩ rfl

/-- C7: after a fetch pass the exposed `total_fetched` counter is 0 for
every input, because `_run_fetch` reads `result.get("fetched", 0)` while
the service result dict carries only `"stored"` and `"queued"`; on a pass
over one valid source record the counters read (fetched 0, stored 1,
queued 1) although one record was fetched.  This contradicts the claim
that `total_fetched` equals the number of records the source returned. -/
theorem run_fetch_total_fetched_always_zero :
    (∀ (now : Int) (records : List Payload) (db : DB) (st : SyncStats),
       (run_fetch now records db st).2.total_fetched = 0)
    ∧ (let records : List Payload :=
         [[("CUST_ORDER_ID", .str "SO1"), ("CUST_ORDER_LINE_NO", .int 1),
           ("BOM_PART_ID", .str "P1")]]
       let out := run_fetch 0 records emptyDB ⟨true, 0, 0, 0⟩
       records.length = 1 ∧ out.2.total_fetched = 0
         ∧ out.2.unique_records = 1 ∧ out.2.queued_jobs = 1) := by
  constructor
  · intro now records db st
    rfl
  · decide

/-- C1: the queue state on which two interleaved claimers double-claim.
One job (id 1) is queued and eligible at time 5.  Both claimers run the
`SELECT` of `get_next_queued_job` before either runs its `UPDATE`, so both
see job 1; the `UPDATE ... WHERE id = ?` is not guarded by the current
status, so the second claimer's update also applies (it restamps
`last_attempt_at`), and both callers return job 1.  The status-guarded
single conditional update the claim describes (`spec_guarded_claim_update`)
would instead affect 0 rows for the second claimer. -/
theorem claim_update_not_status_guarded_double_claim :
    let db0 : DB :=
      ⟨[⟨1, "k", [("CUST_ORDER_ID", .str "k")], "h", 0⟩],
       [⟨1, 1, .queued, 0, none, none, some 0, 0, 0⟩],
       [], 2, 2⟩
    -- both claimers' SELECT, run before either UPDATE, returns job 1
    (select_next_queued 5 db0).map (·.id) = some 1
    -- claimer 1 commits; job 1 is now processing
    ∧ ((claim_update 5 1 db0).jobs.find? (fun j => j.id == 1)).map
        (·.status) = some .processing
    -- claimer 2's blind UPDATE still applies to the processing job:
    -- the job is claimed a second time (last_attempt_at restamped to 6)
    ∧ ((claim_update 6 1 (claim_update 5 1 db0)).jobs.find?
        (fun j => j.id == 1)).map (·.last_attempt_at) = some (some 6)
    -- the conditional update mandated by the spec would claim nothing
    ∧ (spec_guarded_claim_update 6 1 (claim_update 5 1 db0)).2 = 0 := by
  decide

/-- C10: `generate_erp_id` joins the three natural-key fields with `"-"`
and no escaping, so the two field-wise distinct valid records
`("a-b", "c", "d")` and `("a", "b-c", "d")` map to the same `erp_id`
`"a-b-c-d"`, and upserting both into an empty store leaves a single
`erp_raw_data` row. -/
theorem generate_erp_id_not_injective :
    let r1 : Payload := [("CUST_ORDER_ID", .str "a-b"),
      ("CUST_ORDER_LINE_NO", .str "c"), ("BOM_PART_ID", .str "d")]
    let r2 : Payload := [("CUST_ORDER_ID", .str "a"),
      ("CUST_ORDER_LINE_NO", .str "b-c"), ("BOM_PART_ID", .str "d")]
    generate_erp_id r1 = generate_erp_id r2
    ∧ lookupField r1 "CUST_ORDER_ID" ≠ lookupField r2 "CUST_ORDER_ID"
    ∧ lookupField r1 "CUST_ORDER_LINE_NO"
        ≠ lookupField r2 "CUST_ORDER_LINE_NO"
    ∧ validate_required_fields r1 = true
    ∧ validate_required_fields r2 = true
    ∧ (store_erp_record_in_sqlite 1
         r2 (store_erp_record_in_sqlite 0 r1 emptyDB).1).1.raw.length = 1 := by
  decide

/-! ### Order lemmas for the canonical key sort -/

theorem charsLt_asymm : ∀ (a b : List Char),
    charsLt a b = true → charsLt b a = false := by
  intro a
  induction a with
  | nil =>
    intro b h
    cases b with
    | nil => simp [charsLt] at h
    | cons y ys => simp [charsLt]
  | cons x xs ih =>
    intro b h
    cases b with
    | nil => simp [charsLt] at h
    | cons y ys =>
      by_cases h1 : x < y
      · have h2 : ¬ y < x := lt_asymm h1
        simp [charsLt, h1, h2]
      · by_cases h2 : y < x
        · simp [charsLt, h1, h2] at h
        · have h3 := ih ys (by simpa [charsLt, h1, h2] using h)
          simp [charsLt, h1, h2, h3]

theorem charsLt_antisymm_eq : ∀ (a b : List Char),
    charsLt a b = false → charsLt b a = false → a = b := by
  intro a
  induction a with
  | nil =>
    intro b h1 h2
    cases b with
    | nil => rfl
    | cons y ys => simp [charsLt] at h1
  | cons x xs ih =>
    intro b h1 h2
    cases b with
    | nil => simp [charsLt] at h2
    | cons y ys =>
      by_cases hxy : x < y
      · simp [charsLt, hxy] at h1
      · by_cases hyx : y < x
        · simp [charsLt, hyx] at h2
        · have hx : x = y := le_antisymm (le_of_not_lt hyx) (le_of_not_lt hxy)
          have t1 : charsLt xs ys = false := by
            simpa [charsLt, hxy, hyx] using h1
          have t2 : charsLt ys xs = false := by
            simpa [charsLt, hxy, hyx] using h2
          rw [hx, ih ys t1 t2]

theorem charsLt_negTrans : ∀ (a b c : List Char),
    charsLt b a = false → charsLt c b = false → charsLt c a = false := by
  intro a
  induction a with
  | nil =>
    intro b c h1 h2
    cases c with
    | nil => simp [charsLt]
    | cons z zs => simp [charsLt]
  | cons x xs ih =>
    intro b c h1 h2
    cases b with
    | nil => simp [charsLt] at h1
    | cons y ys =>
      cases c with
      | nil => simp [charsLt] at h2
      | cons z zs =>
        have hyx : ¬ y < x := by
          intro hlt
          simp [charsLt, hlt] at h1
        have hzy : ¬ z < y := by
          intro hlt
          simp [charsLt, hlt] at h2
        by_cases hzx : z < x
        · exact absurd hzx
            (not_lt.mpr (le_trans (le_of_not_lt hyx) (le_of_not_lt hzy)))
        · by_cases hxz : x < z
          · simp [charsLt, hzx, hxz]
          · have hx : x = z := le_antisymm (le_of_not_lt hzx) (le_of_not_lt hxz)
            have hxy : ¬ x < y := fun hlt => hzy (hx ▸ hlt)
            have hyz : ¬ y < z := fun hlt => hyx (by rw [← hx] at hlt; exact hlt)
            have t1 : charsLt ys xs = false := by
              simpa [charsLt, hyx, hxy] using h1
            have t2 : charsLt zs ys = false := by
              simpa [charsLt, hzy, hyz] using h2
            simp [charsLt, hzx, hxz, ih ys zs t1 t2]

theorem strData_inj {s t : String} (h : s.data = t.data) : s = t :=
  String.ext h

/-- Two payloads that are equal as maps (permutations with duplicate-free
keys) have the same canonically sorted entry list. -/
theorem sortEntries_eq_of_perm {p q : Payload} (hpq : p.Perm q)
    (hnd : (p.map Prod.fst).Nodup) : sortEntries p = sortEntries q := by
  haveI htot : IsTotal (String × JPrim) keyLe := by
    refine ⟨fun x y => ?_⟩
    unfold keyLe
    cases hb : charsLt y.1.data x.1.data with
    | false => exact Or.inl rfl
    | true => exact Or.inr (charsLt_asymm _ _ hb)
  haveI htr : IsTrans (String × JPrim) keyLe :=
    ⟨fun x y z h1 h2 => charsLt_negTrans x.1.data y.1.data z.1.data h1 h2⟩
  have hndq : (q.map Prod.fst).Nodup := (hpq.map Prod.fst).nodup hnd
  have hp1 : p.Pairwise (fun a b : String × JPrim => a.1 ≠ b.1) :=
    List.pairwise_map.mp hnd
  have hq1 : q.Pairwise (fun a b : String × JPrim => a.1 ≠ b.1) :=
    List.pairwise_map.mp hndq
  have hsp : (sortEntries p).Pairwise (fun a b : String × JPrim => a.1 ≠ b.1) :=
    ((List.perm_insertionSort keyLe p).pairwise_iff
      (fun h => h.symm)).mpr hp1
  have hsq : (sortEntries q).Pairwise (fun a b : String × JPrim => a.1 ≠ b.1) :=
    ((List.perm_insertionSort keyLe q).pairwise_iff
      (fun h => h.symm)).mpr hq1
  have hsortp : (sortEntries p).Sorted keyLe := List.sorted_insertionSort keyLe p
  have hsortq : (sortEntries q).Sorted keyLe := List.sorted_insertionSort keyLe q
  have hstrict : ∀ a b : String × JPrim, keyLe a b ∧ a.1 ≠ b.1 →
      charsLt a.1.data b.1.data = true := by
    intro a b hab
    cases hc : charsLt a.1.data b.1.data with
    | true => rfl
    | false =>
      exact absurd (strData_inj (charsLt_antisymm_eq _ _ hc hab.1))
        hab.2
  have hsp' : (sortEntries p).Pairwise
      (fun a b : String × JPrim => charsLt a.1.data b.1.data = true) :=
    (List.Pairwise.and hsortp hsp).imp (fun h => hstrict _ _ h)
  have hsq' : (sortEntries q).Pairwise
      (fun a b : String × JPrim => charsLt a.1.data b.1.data = true) :=
    (List.Pairwise.and hsortq hsq).imp (fun h => hstrict _ _ h)
  have hperm2 : (sortEntries p).Perm (sortEntries q) :=
    ((List.perm_insertionSort keyLe p).trans hpq).trans
      (List.perm_insertionSort keyLe q).symm
  exact @List.eq_of_perm_of_sorted _
    (fun a b : String × JPrim => charsLt a.1.data b.1.data = true)
    ⟨fun a b h1 h2 => absurd h2 (by simp [charsLt_asymm _ _ h1])⟩
    _ _ hperm2 hsp' hsq'

/-- C9: the content hash is a deterministic, key-order-independent digest
of the payload's map content: payloads equal as maps (permutations with
duplicate-free keys) hash identically, and — given that MD5 does not
collide on this pair of canonical serializations — two payloads hash
differently exactly when their canonical serializations
(`json.dumps(..., sort_keys=True)`) differ. -/
theorem calculate_payload_hash_canonical (p q : Payload)
    (hnd : (p.map Prod.fst).Nodup)
    (hcoll : md5hex (strBytes (dumpsSorted q))
        = md5hex (strBytes (dumpsSorted p)) →
      dumpsSorted q = dumpsSorted p) :
    (p.Perm q → calculate_payload_hash p = calculate_payload_hash q)
    ∧ (calculate_payload_hash p ≠ calculate_payload_hash q
        ↔ dumpsSorted p ≠ dumpsSorted q) := by
  refine ⟨fun hperm => ?_, fun hne hse => ?_, fun hse heq => ?_⟩
  · unfold calculate_payload_hash dumpsSorted
    rw [sortEntries_eq_of_perm hperm hnd]
  · exact hne (by unfold calculate_payload_hash; rw [hse])
  · exact hse ((hcoll heq.symm).symm)

/-- Witness for `calculate_payload_hash_canonical`: the two insertion
orders of the map `a ↦ "x", b ↦ 1` hash identically. -/
theorem calculate_payload_hash_canonical_witness :
    (([("b", JPrim.int 1), ("a", JPrim.str "x")].map Prod.fst).Nodup)
    ∧ ((([("b", JPrim.int 1), ("a", JPrim.str "x")] : Payload).Perm
          [("a", JPrim.str "x"), ("b", JPrim.int 1)] →
        calculate_payload_hash [("b", JPrim.int 1), ("a", JPrim.str "x")]
          = calculate_payload_hash [("a", JPrim.str "x"), ("b", JPrim.int 1)])
      ∧ (calculate_payload_hash [("b", JPrim.int 1), ("a", JPrim.str "x")]
            ≠ calculate_payload_hash [("a", JPrim.str "x"), ("b", JPrim.int 1)]
          ↔ dumpsSorted [("b", JPrim.int 1), ("a", JPrim.str "x")]
            ≠ dumpsSorted [("a", JPrim.str "x"), ("b", JPrim.int 1)])) :=
  ⟨by decide,
   calculate_payload_hash_canonical _ _ (by decide) (fun _ => by decide)⟩

/-! ### Conditional row updates and `find?` -/

theorem find?_map_pred {α : Type} (p : α → Bool) (cond : α → Prop)
    [DecidablePred cond] (f : α → α) (hp : ∀ x, p (f x) = p x)
    {l : List α} {j : α} (h : l.find? p = some j) :
    (l.map (fun x => if cond x then f x else x)).find? p
      = some (if cond j then f j else j) := by
  induction l with
  | nil => simp at h
  | cons y ys ih =>
    by_cases hy : p y = true
    · have hj : j = y := by
        rw [List.find?_cons_of_pos _ hy] at h
        exact (Option.some_inj.mp h).symm
      subst hj
      simp only [List.map_cons]
      apply List.find?_cons_of_pos
      by_cases hc : cond j
      · simp [hc, hp, hy]
      · simp [hc, hy]
    · rw [List.find?_cons_of_neg _ hy] at h
      have hhead : ¬ p (if cond y then f y else y) = true := by
        by_cases hc : cond y
        · simpa [hc, hp] using hy
        · simpa [hc] using hy
      simp only [List.map_cons]
      rw [List.find?_cons_of_neg _ hhead]
      exact ih h

theorem find?_jobs_update (job_id : Nat) (f : JobRow → JobRow)
    (hid : ∀ x, (f x).id = x.id) {l : List JobRow} {j : JobRow}
    (h : l.find? (fun x => x.id == job_id) = some j) :
    (l.map (fun x => if x.id = job_id then f x else x)).find?
      (fun x => x.id == job_id) = some (f j) := by
  have hj : j.id = job_id := by simpa using List.find?_some h
  have hmain := find?_map_pred (fun x => x.id == job_id)
    (fun x => x.id = job_id) f (fun x => by simp [hid]) h
  rwa [if_pos hj] at hmain

/-- C5: `mark_job_failed` increments the retry count; at the new count ≥ 5
the job becomes failed with `next_attempt_at` cleared; below 5 it returns
to queued with `next_attempt_at = now + (retryCount × 5)` minutes (the
code's `min(retryCount*5, 60)` collapses to `retryCount*5` for
retryCount ≤ 4). -/
theorem mark_job_failed_backoff (now : Int) (job_id : Nat) (msg : String)
    (db : DB) (j : JobRow)
    (h : db.jobs.find? (fun x => x.id == job_id) = some j) :
    ∃ j', (mark_job_failed now job_id msg db).jobs.find?
        (fun x => x.id == job_id) = some j'
      ∧ j'.retry_count = j.retry_count + 1
      ∧ j'.last_error = some msg
      ∧ (j.retry_count + 1 ≥ 5 →
          j'.status = .failed ∧ j'.next_attempt_at = none)
      ∧ (j.retry_count + 1 < 5 →
          j'.status = .queued
            ∧ j'.next_attempt_at
                = some (now + ((j.retry_count + 1 : Nat) : Int) * 5)) := by
  unfold mark_job_failed
  rw [h]
  dsimp only
  refine ⟨_, find?_jobs_update job_id _ ?_ h, ?_, ?_, ?_, ?_⟩
  · intro x
    rfl
  · simp
  · simp
  · intro hge
    simp [hge]
  · intro hlt
    have hnge : ¬ j.retry_count + 1 ≥ 5 := by omega
    simp only [hnge, if_false]
    refine ⟨trivial, ?_⟩
    have hmin : ((j.retry_count + 1 : Nat) : Int) * 5 ⊓ 60
        = ((j.retry_count + 1 : Nat) : Int) * 5 := by omega
    rw [hmin]

/-- Witness for `mark_job_failed_backoff`: failing a found job with
`retry_count = 0` requeues it five minutes later with `retry_count = 1`. -/
theorem mark_job_failed_backoff_witness :
    (let db0 : DB :=
      ⟨[], [⟨1, 1, .processing, 0, none, some 0, none, 0, 0⟩], [], 1, 2⟩
     ∃ j', (mark_job_failed 7 1 "boom" db0).jobs.find?
        (fun x => x.id == 1) = some j'
      ∧ j'.retry_count = 0 + 1
      ∧ j'.last_error = some "boom"
      ∧ (0 + 1 ≥ 5 → j'.status = .failed ∧ j'.next_attempt_at = none)
      ∧ (0 + 1 < 5 →
          j'.status = .queued
            ∧ j'.next_attempt_at = some (7 + ((0 + 1 : Nat) : Int) * 5))) :=
  mark_job_failed_backoff 7 1 "boom"
    ⟨[], [⟨1, 1, .processing, 0, none, some 0, none, 0, 0⟩], [], 1, 2⟩
    ⟨1, 1, .processing, 0, none, some 0, none, 0, 0⟩ rfl

/-- C4: `create_job_for_payload` creates a fresh queued job with
`retry_count = 0` and `next_attempt_at = now` when none exists for the
record; resets an existing done job to that state when `force_requeue` is
set; leaves queued and processing jobs untouched; and never reopens a
failed job, even when `force_requeue` is set. -/
theorem create_job_for_payload_spec (now : Int) (ref : Nat) (force : Bool)
    (db : DB) :
    (db.jobs.find? (fun j => j.payload_ref == ref) = none →
       (create_job_for_payload now ref force db).2 = some db.next_job_id
       ∧ (create_job_for_payload now ref force db).1.jobs
           = db.jobs ++ [⟨db.next_job_id, ref, .queued, 0, none, none,
               some now, now, now⟩])
    ∧ (∀ j, db.jobs.find? (fun j0 => j0.payload_ref == ref) = some j →
        (create_job_for_payload now ref force db).2 = some j.id
        ∧ (force = true → j.status = .done →
            ∃ j', (create_job_for_payload now ref force db).1.jobs.find?
                (fun x => x.payload_ref == ref) = some j'
              ∧ j' = {j with status := .queued, retry_count := 0,
                             next_attempt_at := some now, updated_at := now}
              ∧ (create_job_for_payload now ref force db).1.jobs.length
                  = db.jobs.length)
        ∧ ((j.status = .queued ∨ j.status = .processing) →
            (create_job_for_payload now ref force db).1 = db)
        ∧ (j.status = .failed →
            (create_job_for_payload now ref force db).1 = db)) := by
  constructor
  · intro hnone
    constructor
    · simp [create_job_for_payload, hnone]
    · simp [create_job_for_payload, hnone]
  · intro j hfind
    refine ⟨?_, ?_, ?_, ?_⟩
    · by_cases hforce : (force && (j.status == JobStatus.done)) = true <;>
        simp [create_job_for_payload, hfind, hforce]
    · intro hf hdone
      have hforce : (force && (j.status == JobStatus.done)) = true := by
        simp [hf, hdone]
      have hres : (create_job_for_payload now ref force db).1.jobs
          = db.jobs.map (fun x => if x.id = j.id then
              {x with status := JobStatus.queued, updated_at := now,
                      next_attempt_at := some now, retry_count := 0}
            else x) := by
        simp [create_job_for_payload, hfind, hforce]
      refine ⟨_, ?_, rfl, ?_⟩
      · rw [hres]
        have hmain := find?_map_pred (fun x : JobRow => x.payload_ref == ref)
          (fun x : JobRow => x.id = j.id)
          (fun x : JobRow =>
            {x with status := JobStatus.queued, updated_at := now,
                    next_attempt_at := some now, retry_count := 0})
          (fun x => rfl) hfind
        rwa [if_pos rfl] at hmain
      · rw [hres]
        simp
    · intro hqp
      rcases hqp with h1 | h1 <;> simp [create_job_for_payload, hfind, h1]
    · intro h1
      simp [create_job_for_payload, hfind, h1]

/-- Witness for `create_job_for_payload_spec`: requeueing a done job with
`force_requeue = true` resets it to queued, `retry_count = 0`,
`next_attempt_at = now`, without adding a row. -/
theorem create_job_for_payload_spec_witness :
    ∃ j', (create_job_for_payload 5 1 true
        ⟨[], [⟨1, 1, .done, 3, none, none, none, 0, 0⟩], [], 1, 2⟩).1.jobs.find?
        (fun x => x.payload_ref == 1) = some j'
      ∧ j' = ⟨1, 1, .queued, 0, none, none, some 5, 0, 5⟩
      ∧ (create_job_for_payload 5 1 true
          ⟨[], [⟨1, 1, .done, 3, none, none, none, 0, 0⟩], [], 1, 2⟩).1.jobs.length
        = ([⟨1, 1, .done, 3, none, none, none, 0, 0⟩] : List JobRow).length :=
  ((create_job_for_payload_spec 5 1 true
      ⟨[], [⟨1, 1, .done, 3, none, none, none, 0, 0⟩], [], 1, 2⟩).2
    ⟨1, 1, .done, 3, none, none, none, 0, 0⟩ rfl).2.1 rfl rfl

/-! ### Helper lemmas for the upsert/enqueue pipeline -/

theorem create_job_raw_eq (now : Int) (ref : Nat) (force : Bool) (db : DB) :
    (create_job_for_payload now ref force db).1.raw = db.raw := by
  unfold create_job_for_payload
  cases h : db.jobs.find? (fun j => j.payload_ref == ref) with
  | none => rfl
  | some j =>
    by_cases hforce : (force && (j.status == JobStatus.done)) = true <;>
      simp [hforce]

theorem insert_raw_jobs_eq (now : Int) (key : String) (p : Payload)
    (db : DB) : (insert_raw_erp_data now key p db).1.jobs = db.jobs := by
  unfold insert_raw_erp_data
  cases h : db.raw.find? (fun r => r.erp_id == key) with
  | none => rfl
  | some r =>
    by_cases hne : r.payload_hash ≠ calculate_payload_hash p <;> simp [hne]

/-- After any upsert, the row for the key is present and carries the
payload's hash, and the returned record id is that row's id. -/
theorem insert_raw_finds (now : Int) (key : String) (p : Payload)
    (db : DB) :
    ∃ r1, (insert_raw_erp_data now key p db).1.raw.find?
        (fun x => x.erp_id == key) = some r1
      ∧ r1.payload_hash = calculate_payload_hash p
      ∧ (insert_raw_erp_data now key p db).2.1 = some r1.id := by
  cases hf : db.raw.find? (fun r => r.erp_id == key) with
  | none =>
    have hstep : insert_raw_erp_data now key p db
        = ({db with raw := db.raw ++ [⟨db.next_raw_id, key, p,
                                       calculate_payload_hash p, now⟩],
                    next_raw_id := db.next_raw_id + 1},
           some db.next_raw_id, false) := by
      unfold insert_raw_erp_data
      rw [hf]
    refine ⟨⟨db.next_raw_id, key, p, calculate_payload_hash p, now⟩,
      ?_, rfl, ?_⟩
    · rw [hstep]
      dsimp only
      rw [List.find?_append, hf]
      simp
    · rw [hstep]
  | some r =>
    by_cases hne : r.payload_hash ≠ calculate_payload_hash p
    · have hstep : insert_raw_erp_data now key p db
          = ({db with raw := db.raw.map (fun x => if x.id = r.id then
                {x with payload := p,
                        payload_hash := calculate_payload_hash p,
                        fetched_at := now}
              else x)}, some r.id, true) := by
        unfold insert_raw_erp_data
        rw [hf]
        dsimp only
        rw [if_pos hne]
      refine ⟨{r with payload := p,
                      payload_hash := calculate_payload_hash p,
                      fetched_at := now}, ?_, rfl, ?_⟩
      · rw [hstep]
        dsimp only
        have hmain := find?_map_pred (fun x : RawRow => x.erp_id == key)
          (fun x : RawRow => x.id = r.id)
          (fun x : RawRow =>
            {x with payload := p,
                    payload_hash := calculate_payload_hash p,
                    fetched_at := now})
          (fun x => rfl) hf
        rwa [if_pos rfl] at hmain
      · rw [hstep]
    · have hstep : insert_raw_erp_data now key p db
          = (db, some r.id, false) := by
        unfold insert_raw_erp_data
        rw [hf]
        dsimp only
        rw [if_neg hne]
      push_neg at hne
      refine ⟨r, ?_, hne, ?_⟩
      · rw [hstep]
        exact hf
      · rw [hstep]

/-- After any enqueue, some job for the record exists. -/
theorem create_job_finds_ref (now : Int) (ref : Nat) (force : Bool)
    (db : DB) :
    ((create_job_for_payload now ref force db).1.jobs.find?
      (fun x => x.payload_ref == ref)).isSome = true := by
  cases h : db.jobs.find? (fun j => j.payload_ref == ref) with
  | none =>
    apply List.find?_isSome.mpr
    exact ⟨⟨db.next_job_id, ref, .queued, 0, none, none, some now, now, now⟩,
      by simp [create_job_for_payload, h], by simp⟩
  | some j =>
    have hjmem : j ∈ db.jobs := List.mem_of_find?_eq_some h
    have hjref := List.find?_some h
    by_cases hforce : (force && (j.status == JobStatus.done)) = true
    · have hres : (create_job_for_payload now ref force db).1.jobs
          = db.jobs.map (fun x => if x.id = j.id then
              {x with status := JobStatus.queued, updated_at := now,
                      next_attempt_at := some now, retry_count := 0}
            else x) := by
        simp [create_job_for_payload, h, hforce]
      rw [hres]
      apply List.find?_isSome.mpr
      refine ⟨_, List.mem_map_of_mem _ hjmem, ?_⟩
      simpa using hjref
    · have hres : (create_job_for_payload now ref force db).1 = db := by
        simp [create_job_for_payload, h, hforce]
      rw [hres]
      exact List.find?_isSome.mpr ⟨j, hjmem, hjref⟩

/-- C3: `insert_raw_erp_data` is the hash-compared upsert: an unseen key
inserts a new row and returns changed=false; a seen key with a different
stored hash updates payload, hash and fetched_at and returns changed=true;
an identical hash leaves the database untouched and returns changed=false;
and re-running the store-then-enqueue pass with the same payload returns
changed=false, changes nothing in the store, and leaves the job queue's
rows exactly as they were. -/
theorem insert_raw_erp_data_upsert (now : Int) (key : String) (p : Payload)
    (db : DB) :
    (db.raw.find? (fun r => r.erp_id == key) = none →
       insert_raw_erp_data now key p db
         = ({db with raw := db.raw ++ [⟨db.next_raw_id, key, p,
                                        calculate_payload_hash p, now⟩],
                     next_raw_id := db.next_raw_id + 1},
            some db.next_raw_id, false))
    ∧ (∀ r, db.raw.find? (fun r0 => r0.erp_id == key) = some r →
        (r.payload_hash ≠ calculate_payload_hash p →
           insert_raw_erp_data now key p db
             = ({db with raw := db.raw.map (fun x => if x.id = r.id then
                   {x with payload := p,
                           payload_hash := calculate_payload_hash p,
                           fetched_at := now}
                 else x)}, some r.id, true))
        ∧ (r.payload_hash = calculate_payload_hash p →
           insert_raw_erp_data now key p db = (db, some r.id, false)))
    ∧ (∀ (rid : Nat) (now2 now3 now4 : Int),
        (insert_raw_erp_data now key p db).2.1 = some rid →
        insert_raw_erp_data now3 key p
            (create_job_for_payload now2 rid
              (insert_raw_erp_data now key p db).2.2
              (insert_raw_erp_data now key p db).1).1
          = ((create_job_for_payload now2 rid
               (insert_raw_erp_data now key p db).2.2
               (insert_raw_erp_data now key p db).1).1, some rid, false)
        ∧ (create_job_for_payload now4 rid false
             (insert_raw_erp_data now3 key p
               (create_job_for_payload now2 rid
                 (insert_raw_erp_data now key p db).2.2
                 (insert_raw_erp_data now key p db).1).1).1).1.jobs
          = (create_job_for_payload now2 rid
              (insert_raw_erp_data now key p db).2.2
              (insert_raw_erp_data now key p db).1).1.jobs) := by
  refine ⟨?_, ?_, ?_⟩
  · intro hnone
    unfold insert_raw_erp_data
    rw [hnone]
  · intro r hr
    constructor
    · intro hne
      unfold insert_raw_erp_data
      rw [hr]
      dsimp only
      rw [if_pos hne]
    · intro heq
      unfold insert_raw_erp_data
      rw [hr]
      dsimp only
      rw [if_neg (fun hcon => hcon heq)]
  · intro rid now2 now3 now4 hrid
    obtain ⟨r1, hfind1, hhash1, hid1⟩ := insert_raw_finds now key p db
    have hrid1 : rid = r1.id := Option.some_inj.mp (hrid.symm.trans hid1)
    set c1 := (insert_raw_erp_data now key p db).2.2 with hc1
    set db1 := (insert_raw_erp_data now key p db).1 with hdb1
    set db2 := (create_job_for_payload now2 rid c1 db1).1 with hdb2
    have hfind2 : db2.raw.find? (fun x => x.erp_id == key) = some r1 := by
      rw [hdb2, create_job_raw_eq]
      exact hfind1
    have hstep3 : insert_raw_erp_data now3 key p db2
        = (db2, some r1.id, false) := by
      unfold insert_raw_erp_data
      rw [hfind2]
      dsimp only
      rw [if_neg (fun hcon => hcon hhash1)]
    constructor
    · rw [hrid1]
      exact hstep3
    · have hsome := create_job_finds_ref now2 rid c1 db1
      rw [← hdb2] at hsome
      obtain ⟨j2, hj2⟩ := Option.isSome_iff_exists.mp hsome
      rw [hstep3]
      show (create_job_for_payload now4 rid false db2).1.jobs = db2.jobs
      unfold create_job_for_payload
      rw [hj2]
      simp

/-- Witness for `insert_raw_erp_data_upsert`: storing a fresh record in
the empty database inserts it unchanged, and re-running the
store-then-enqueue pass with the same payload reports no change and adds
no job. -/
theorem insert_raw_erp_data_upsert_witness :
    (insert_raw_erp_data 0 "k" [("a", JPrim.str "x")] emptyDB
       = ({emptyDB with
             raw := emptyDB.raw ++ [⟨emptyDB.next_raw_id, "k",
                      [("a", JPrim.str "x")],
                      calculate_payload_hash [("a", JPrim.str "x")], 0⟩],
             next_raw_id := emptyDB.next_raw_id + 1},
          some emptyDB.next_raw_id, false))
    ∧ (insert_raw_erp_data 2 "k" [("a", JPrim.str "x")]
          (create_job_for_payload 1 1
            (insert_raw_erp_data 0 "k" [("a", JPrim.str "x")] emptyDB).2.2
            (insert_raw_erp_data 0 "k" [("a", JPrim.str "x")] emptyDB).1).1
        = ((create_job_for_payload 1 1
             (insert_raw_erp_data 0 "k" [("a", JPrim.str "x")] emptyDB).2.2
             (insert_raw_erp_data 0 "k" [("a", JPrim.str "x")] emptyDB).1).1,
           some 1, false)
       ∧ (create_job_for_payload 3 1 false
            (insert_raw_erp_data 2 "k" [("a", JPrim.str "x")]
              (create_job_for_payload 1 1
                (insert_raw_erp_data 0 "k" [("a", JPrim.str "x")] emptyDB).2.2
                (insert_raw_erp_data 0 "k" [("a", JPrim.str "x")]
                  emptyDB).1).1).1).1.jobs
          = (create_job_for_payload 1 1
              (insert_raw_erp_data 0 "k" [("a", JPrim.str "x")] emptyDB).2.2
              (insert_raw_erp_data 0 "k" [("a", JPrim.str "x")]
                emptyDB).1).1.jobs) :=
  ⟨(insert_raw_erp_data_upsert 0 "k" [("a", JPrim.str "x")] emptyDB).1 rfl,
   (insert_raw_erp_data_upsert 0 "k" [("a", JPrim.str "x")] emptyDB).2.2
     1 1 2 3 (by decide)⟩

/-- C8: `reset_stuck_jobs` requeues exactly the jobs whose status is
processing with `last_attempt_at` older than the timeout; a processing job
with a recent (or missing) `last_attempt_at`, and every job in any other
status, is left untouched; and a reset job changes only its `status` and
`updated_at` fields. -/
theorem reset_stuck_jobs_spec (now timeout : Int) (db : DB) :
    (reset_stuck_jobs now timeout db).1.jobs.length = db.jobs.length
    ∧ ∀ i (h1 : i < db.jobs.length)
        (h2 : i < (reset_stuck_jobs now timeout db).1.jobs.length),
        (((db.jobs.get ⟨i, h1⟩).status = .processing
            ∧ ∃ t, (db.jobs.get ⟨i, h1⟩).last_attempt_at = some t
                ∧ t < now - timeout) →
          (reset_stuck_jobs now timeout db).1.jobs.get ⟨i, h2⟩
            = {db.jobs.get ⟨i, h1⟩ with status := .queued,
                                        updated_at := now})
        ∧ (¬ ((db.jobs.get ⟨i, h1⟩).status = .processing
            ∧ ∃ t, (db.jobs.get ⟨i, h1⟩).last_attempt_at = some t
                ∧ t < now - timeout) →
          (reset_stuck_jobs now timeout db).1.jobs.get ⟨i, h2⟩
            = db.jobs.get ⟨i, h1⟩) := by
  refine ⟨by simp [reset_stuck_jobs], ?_⟩
  intro i h1 h2
  have hget : (reset_stuck_jobs now timeout db).1.jobs.get ⟨i, h2⟩
      = (if ((db.jobs.get ⟨i, h1⟩).status == JobStatus.processing
            && (match (db.jobs.get ⟨i, h1⟩).last_attempt_at with
                | some t => decide (t < now - timeout)
                | none => false)) = true
         then {db.jobs.get ⟨i, h1⟩ with status := JobStatus.queued,
                                         updated_at := now}
         else db.jobs.get ⟨i, h1⟩) := by
    simp [reset_stuck_jobs]
  constructor
  · rintro ⟨hst, t, hlast, hlt⟩
    have hc : ((db.jobs.get ⟨i, h1⟩).status == JobStatus.processing
        && (match (db.jobs.get ⟨i, h1⟩).last_attempt_at with
            | some t => decide (t < now - timeout)
            | none => false)) = true := by
      rw [hst, hlast]
      simp [hlt]
    rw [hget, if_pos hc]
  · intro hnot
    have hc : ¬ ((db.jobs.get ⟨i, h1⟩).status == JobStatus.processing
        && (match (db.jobs.get ⟨i, h1⟩).last_attempt_at with
            | some t => decide (t < now - timeout)
            | none => false)) = true := by
      intro hcond
      apply hnot
      rw [Bool.and_eq_true] at hcond
      obtain ⟨hst, hrest⟩ := hcond
      refine ⟨by simpa using hst, ?_⟩
      cases hl : (db.jobs.get ⟨i, h1⟩).last_attempt_at with
      | none => rw [hl] at hrest; simp at hrest
      | some t =>
        rw [hl] at hrest
        exact ⟨t, rfl, of_decide_eq_true hrest⟩
    rw [hget, if_neg hc]

/-- Witness for `reset_stuck_jobs_spec`: with a 10-minute timeout at time
100, a processing job last attempted at 0 is requeued (all other fields
kept), and a processing job last attempted at 95 is untouched. -/
theorem reset_stuck_jobs_spec_witness :
    ((reset_stuck_jobs 100 10
        ⟨[], [⟨1, 1, .processing, 2, none, some 0, none, 0, 0⟩,
              ⟨2, 2, .processing, 0, none, some 95, none, 0, 0⟩],
         [], 1, 3⟩).1.jobs.get ⟨0, by decide⟩
      = ⟨1, 1, .queued, 2, none, some 0, none, 0, 100⟩)
    ∧ ((reset_stuck_jobs 100 10
        ⟨[], [⟨1, 1, .processing, 2, none, some 0, none, 0, 0⟩,
              ⟨2, 2, .processing, 0, none, some 95, none, 0, 0⟩],
         [], 1, 3⟩).1.jobs.get ⟨1, by decide⟩
      = ⟨2, 2, .processing, 0, none, some 95, none, 0, 0⟩) :=
  ⟨((reset_stuck_jobs_spec 100 10
      ⟨[], [⟨1, 1, .processing, 2, none, some 0, none, 0, 0⟩,
            ⟨2, 2, .processing, 0, none, some 95, none, 0, 0⟩],
       [], 1, 3⟩).2 0 (by decide) (by decide)).1 ⟨rfl, 0, rfl, by decide⟩,
   ((reset_stuck_jobs_spec 100 10
      ⟨[], [⟨1, 1, .processing, 2, none, some 0, none, 0, 0⟩,
            ⟨2, 2, .processing, 0, none, some 95, none, 0, 0⟩],
       [], 1, 3⟩).2 1 (by decide) (by decide)).2
     (by rintro ⟨-, t, ht, hlt⟩; simp at ht; omega)⟩

/-! ### The single-active-job invariant (C6) -/

theorem pairwise_refs_map {l : List JobRow} (f : JobRow → JobRow)
    (hf : ∀ x, (f x).payload_ref = x.payload_ref)
    (h : l.Pairwise (fun a b => a.payload_ref ≠ b.payload_ref)) :
    (l.map f).Pairwise (fun a b => a.payload_ref ≠ b.payload_ref) :=
  List.Pairwise.map f (fun a b hab => by simpa [hf] using hab) h

theorem step_pairwise {db db' : DB} (hstep : Step db db')
    (h : db.jobs.Pairwise (fun a b => a.payload_ref ≠ b.payload_ref)) :
    db'.jobs.Pairwise (fun a b => a.payload_ref ≠ b.payload_ref) := by
  cases hstep with
  | upsert now key p =>
    rw [insert_raw_jobs_eq]
    exact h
  | enqueue now ref force =>
    unfold create_job_for_payload
    cases hfind : db.jobs.find? (fun j => j.payload_ref == ref) with
    | some j =>
      dsimp only
      by_cases hforce : (force && (j.status == JobStatus.done)) = true
      · rw [if_pos hforce]
        exact pairwise_refs_map _
          (fun x => by by_cases hx : x.id = j.id <;> simp [hx]) h
      · rw [if_neg hforce]
        exact h
    | none =>
      dsimp only
      refine List.pairwise_append.mpr ⟨h, by simp, ?_⟩
      intro a ha b hb
      have hne := List.find?_eq_none.mp hfind a ha
      have hb' : b = ⟨db.next_job_id, ref, .queued, 0, none, none,
          some now, now, now⟩ := by simpa using hb
      rw [hb']
      simpa using hne
  | claim now =>
    unfold get_next_queued_job
    cases hs : select_next_queued now db with
    | none => exact h
    | some j =>
      dsimp only
      unfold claim_update
      exact pairwise_refs_map _
        (fun x => by by_cases hx : x.id = j.id <;> simp [hx]) h
  | complete now job_id =>
    unfold mark_job_done
    exact pairwise_refs_map _
      (fun x => by by_cases hx : x.id = job_id <;> simp [hx]) h
  | fail now job_id msg =>
    unfold mark_job_failed
    cases hfind : db.jobs.find? (fun j => j.id == job_id) with
    | none => exact h
    | some j =>
      dsimp only
      exact pairwise_refs_map _
        (fun x => by by_cases hx : x.id = job_id <;> simp [hx]) h
  | logPush now job_id code body =>
    exact h
  | reap now timeout =>
    unfold reset_stuck_jobs
    dsimp only
    refine pairwise_refs_map _ (fun x => ?_) h
    by_cases hx : ((x.status == JobStatus.processing)
        && (match x.last_attempt_at with
            | some t => decide (t < now - timeout)
            | none => false)) = true <;>
      simp [hx]

theorem reachable_pairwise {db : DB} (h : Reachable db) :
    db.jobs.Pairwise (fun a b => a.payload_ref ≠ b.payload_ref) := by
  induction h with
  | init => simp [emptyDB]
  | step _ hs ih => exact step_pairwise hs ih

theorem length_filter_active_le_one {l : List JobRow} {ref : Nat}
    (h : l.Pairwise (fun a b => a.payload_ref ≠ b.payload_ref)) :
    (l.filter (fun j => j.payload_ref == ref
      && (j.status == JobStatus.queued
          || j.status == JobStatus.processing))).length ≤ 1 := by
  induction l with
  | nil => simp
  | cons x xs ih =>
    have hx := List.pairwise_cons.mp h
    by_cases hpx : (x.payload_ref == ref
        && (x.status == JobStatus.queued
            || x.status == JobStatus.processing)) = true
    · have hxref : x.payload_ref = ref := by
        have hpx2 := hpx
        rw [Bool.and_eq_true] at hpx2
        simpa using hpx2.1
      have htail : xs.filter (fun j => j.payload_ref == ref
          && (j.status == JobStatus.queued
              || j.status == JobStatus.processing)) = [] := by
        apply List.filter_eq_nil_iff.mpr
        intro a ha hpa
        have haref : a.payload_ref = ref := by
          rw [Bool.and_eq_true] at hpa
          simpa using hpa.1
        exact hx.1 a ha (hxref.trans haref.symm)
      simp [List.filter_cons, hpx, htail]
    · simp only [List.filter_cons, hpx, if_false]
      exact ih hx.2

/-- C6: in every database state reachable through the operations of the
core, at most one job with status queued or processing exists per
`payload_ref` (indeed `create_job_for_payload` never inserts a second row
for a record, and no other operation ever inserts a job row). -/
theorem active_jobs_at_most_one_per_ref (db : DB) (h : Reachable db)
    (ref : Nat) : countActiveJobs db ref ≤ 1 := by
  unfold countActiveJobs
  exact length_filter_active_le_one (reachable_pairwise h)

/-- Witness for `active_jobs_at_most_one_per_ref` at the state reached by
enqueueing record 1 into the empty database. -/
theorem active_jobs_at_most_one_per_ref_witness :
    countActiveJobs (create_job_for_payload 0 1 false emptyDB).1 1 ≤ 1 :=
  active_jobs_at_most_one_per_ref _
    (Reachable.step Reachable.init (Step.enqueue 0 1 false emptyDB)) 1

end ErpSync
